import Mathlib

/-!
Verification of the configuration builder and build orchestrator of
`yd_res_pack.py` (SPIFFS assets generator GUI).

The embedding follows the source: widget state becomes a record
(`GuiState`), the JSON configuration dictionary becomes an association
list of `JValue`s, `generate_config` / `load_config_from_dict` /
`load_default_config` / `generate_assets` are translated one method at a
time, and `GenerateThread.run` becomes a pure function from a description
of the external process's observable behaviour to the list of emitted
Qt signals.  Path handling mirrors CPython's `posixpath.join` and
`posixpath.split`.
-/

namespace YdResPack

/-- A non-integral JSON number, as Python's `json` hands it over as a
`float`: a decimal mantissa times a power of ten (kept exact here), or the
non-standard `NaN` / `Infinity` / `-Infinity` constants Python accepts by
default. -/
inductive PyFloat where
  | dec (m : Int) (e : Int) : PyFloat
  | inf (neg : Bool) : PyFloat
  | nan : PyFloat
deriving Repr, DecidableEq

/-- JSON values as Python's `json.load` produces them: null, booleans,
integers, floats, strings, arrays and objects. -/
inductive JValue where
  | null : JValue
  | bool (b : Bool) : JValue
  | int (n : Int) : JValue
  | float (f : PyFloat) : JValue
  | str (s : String) : JValue
  | arr (xs : List JValue) : JValue
  | obj (kvs : List (String × JValue)) : JValue
deriving Repr

/-- Python truthiness of a JSON value (`if value:`).  A float is falsy
exactly when it is `0.0`: a zero mantissa.  (A denormal literal such as
`1e-400`, which IEEE arithmetic would underflow to `0.0`, is treated as
non-zero here; no claim inspects that corner.) -/
def truthy : JValue → Bool
  | .null => false
  | .bool b => b
  | .int n => n != 0
  | .float f => (match f with | .dec m _ => m != 0 | _ => true)
  | .str s => s != ""
  | .arr xs => !xs.isEmpty
  | .obj kvs => !kvs.isEmpty

/-- `dict.__getitem__`-style lookup.  Python's `json` module keeps the last
occurrence of a duplicated key, hence the lookup is on the reversed list. -/
def jget (d : List (String × JValue)) (k : String) : Option JValue :=
  (d.reverse.find? (fun p => p.1 == k)).map (fun p => p.2)

/-- `config.get(k, default)`. -/
def jgetD (d : List (String × JValue)) (k : String) (v : JValue) : JValue :=
  (jget d k).getD v

/-- A value usable where PyQt expects `str` (`setText`, `setCurrentText`,
`os.path.dirname`, `.split`): anything else raises `TypeError`. -/
def asStr : JValue → Option String
  | .str s => some s
  | _ => none

/-- A value usable where PyQt expects a C `int` (`QSpinBox.setValue`).
Python `bool` is a subclass of `int` and is accepted as 0/1; an `int` is
accepted only when it fits in a signed 32-bit C `int` — outside that range
sip raises `OverflowError` — and any other type raises `TypeError`. -/
def asInt : JValue → Option Int
  | .int n => if -2147483648 ≤ n ∧ n < 2147483648 then some n else none
  | .bool b => some (if b then 1 else 0)
  | _ => none

/-! ### Python string methods -/

/-- `str.split(",")` on character lists: splitting on every comma, keeping
empty pieces (`"".split(",") == [""]`). -/
def splitCommaCh : List Char → List (List Char)
  | [] => [[]]
  | c :: cs =>
    if c = ',' then [] :: splitCommaCh cs
    else
      match splitCommaCh cs with
      | [] => [[c]]
      | r :: rs => (c :: r) :: rs

/-- `str.split(",")`. -/
def pySplitComma (s : String) : List String :=
  (splitCommaCh s.data).map (fun l => ⟨l⟩)

/-- ASCII whitespace as stripped by `str.strip()`. -/
def isSpaceChar (c : Char) : Bool :=
  c = ' ' ∨ c = '\t' ∨ c = '\n' ∨ c = '\r' ∨ c = Char.ofNat 11 ∨ c = Char.ofNat 12

/-- `str.strip()`: drop leading and trailing whitespace. -/
def pyStrip (s : String) : String :=
  ⟨((s.data.dropWhile isSpaceChar).reverse.dropWhile isSpaceChar).reverse⟩

/-! ### posixpath -/

/-- `posixpath.join a b` on character lists (two components, as in
`os.path.join(output_path, "assets.bin")`). -/
def joinCh (a b : List Char) : List Char :=
  if b.head? = some '/' then b
  else if a = [] ∨ a.getLast? = some '/' then a ++ b
  else a ++ '/' :: b

/-- `os.path.join` on strings. -/
def ospath_join (a b : String) : String := ⟨joinCh a.data b.data⟩

/-- The head component of `posixpath.split p`: everything up to the last
`'/'`, with trailing slashes stripped unless the head is all slashes. -/
def splitHeadCh (p : List Char) : List Char :=
  let tailRev := p.reverse.takeWhile (fun c => c != '/')
  let headRev := p.reverse.drop tailRev.length
  let head := headRev.reverse
  if head ≠ [] ∧ ¬ (head.all (fun c => c == '/') = true) then
    (head.reverse.dropWhile (fun c => c == '/')).reverse
  else head

/-- `os.path.dirname` on strings. -/
def ospath_dirname (p : String) : String := ⟨splitHeadCh p.data⟩

/-! ### Widget state -/

/-- The form state of `SPIFFSAssetsGUI`: one field per widget whose value
feeds the configuration, plus the generate button / progress bar state and
the output log. -/
structure GuiState where
  assets_path : String
  output_path : String
  main_path : String
  script_path : String
  name_length : Int
  split_height : Int
  assets_size : String
  support_jpg : Bool
  support_png : Bool
  support_sjpg : Bool
  support_spng : Bool
  support_qoi : Bool
  support_sqoi : Bool
  support_raw : Bool
  lvgl_ver : String
  support_raw_cf : String
  support_raw_ff : String
  support_raw_dither : Bool
  support_raw_bgr : Bool
  generate_btn_enabled : Bool
  progress_bar_visible : Bool
  output_log : List String
deriving Repr, DecidableEq

/-- Items of the LVGL version combo box (`setup_advanced_tab`). -/
def lvglItems : List String := ["8.3.0", "9.0.0", "9.1.0", "9.2.0"]

/-- Items of the colour-format combo box. -/
def rawCfItems : List String :=
  ["TRUE_COLOR", "TRUE_COLOR_ALPHA", "INDEXED_1BIT",
   "INDEXED_2BIT", "INDEXED_4BIT", "INDEXED_8BIT"]

/-- Items of the raw output-form combo box. -/
def rawFfItems : List String := ["C_ARRAY", "BIN"]

/-- `QComboBox.setCurrentText` on a non-editable combo box: the current
text changes only when the requested text is one of the items; otherwise
the previous selection is kept silently. -/
def comboSetText (items : List String) (cur v : String) : String :=
  if v ∈ items then v else cur

/-- `QSpinBox.setValue`: the value is clamped into the configured range. -/
def clampSpin (lo hi v : Int) : Int := max lo (min hi v)

/-- The state `init_ui` builds (widget defaults of the three setup tabs). -/
def initial_state : GuiState :=
  { assets_path := "", output_path := "", main_path := "",
    script_path := "./spiffs_assets_gen.py",
    name_length := 32, split_height := 16, assets_size := "0x100000",
    support_jpg := true, support_png := true,
    support_sjpg := true, support_spng := true,
    support_qoi := false, support_sqoi := false, support_raw := false,
    lvgl_ver := "9.0.0", support_raw_cf := "TRUE_COLOR", support_raw_ff := "BIN",
    support_raw_dither := false, support_raw_bgr := false,
    generate_btn_enabled := true, progress_bar_visible := false,
    output_log := [] }

/-- The checked input formats, in checkbox order (`get_support_formats`
before the `",".join`). -/
def support_formats_list (s : GuiState) : List String :=
  (if s.support_jpg then [".jpg"] else []) ++ (if s.support_png then [".png"] else [])

/-- `get_support_formats`: comma-joined list of checked input formats. -/
def get_support_formats (s : GuiState) : String :=
  String.intercalate "," (support_formats_list s)

/-! ### Configuration artifact -/

/-- The configuration dictionary `generate_config` builds, with the same
field names as the JSON keys. -/
structure Config where
  assets_path : String
  image_file : String
  main_path : String
  name_length : Int
  split_height : Int
  support_format : String
  support_spng : Bool
  support_sjpg : Bool
  support_qoi : Bool
  support_sqoi : Bool
  support_raw : Bool
  assets_size : String
  lvgl_ver : String
  support_raw_cf : String
  support_raw_ff : String
  support_raw_dither : Bool
  support_raw_bgr : Bool
deriving Repr, DecidableEq

/-- `generate_config`: raises `ValueError` (modelled as `.error`) when the
output directory is empty, otherwise builds the configuration dictionary,
deriving the output file as `os.path.join(output_path, "assets.bin")`. -/
def generate_config (s : GuiState) : Except String Config :=
  if s.output_path = "" then .error "请选择输出目录"
  else .ok {
    assets_path := s.assets_path,
    image_file := ospath_join s.output_path "assets.bin",
    main_path := s.main_path,
    name_length := s.name_length,
    split_height := s.split_height,
    support_format := get_support_formats s,
    support_spng := s.support_spng,
    support_sjpg := s.support_sjpg,
    support_qoi := s.support_qoi,
    support_sqoi := s.support_sqoi,
    support_raw := s.support_raw,
    assets_size := s.assets_size,
    lvgl_ver := s.lvgl_ver,
    support_raw_cf := s.support_raw_cf,
    support_raw_ff := s.support_raw_ff,
    support_raw_dither := s.support_raw_dither,
    support_raw_bgr := s.support_raw_bgr }

/-- Serialization of a configuration: the key/value pairs written by
`json.dump`, in the insertion order of `generate_config`'s dict literal. -/
def config_dict (c : Config) : List (String × JValue) :=
  [("assets_path", .str c.assets_path),
   ("image_file", .str c.image_file),
   ("main_path", .str c.main_path),
   ("name_length", .int c.name_length),
   ("split_height", .int c.split_height),
   ("support_format", .str c.support_format),
   ("support_spng", .bool c.support_spng),
   ("support_sjpg", .bool c.support_sjpg),
   ("support_qoi", .bool c.support_qoi),
   ("support_sqoi", .bool c.support_sqoi),
   ("support_raw", .bool c.support_raw),
   ("assets_size", .str c.assets_size),
   ("lvgl_ver", .str c.lvgl_ver),
   ("support_raw_cf", .str c.support_raw_cf),
   ("support_raw_ff", .str c.support_raw_ff),
   ("support_raw_dither", .bool c.support_raw_dither),
   ("support_raw_bgr", .bool c.support_raw_bgr)]

/-- `load_config_from_dict`, statement for statement.  Each widget setter
that needs a `str`/`int` raises `TypeError` on a wrongly typed value; the
method then aborts with the state mutated up to that point (returned with
`false`).  The `image_file` step raises exactly when the value is truthy
but not a string (`os.path.dirname` on a non-path); `setChecked` accepts
any value through Python truthiness. -/
def load_config_from_dict (s : GuiState) (d : List (String × JValue)) :
    GuiState × Bool :=
  match asStr (jgetD d "assets_path" (.str "")) with
  | none => (s, false)
  | some ap =>
  let s := { s with assets_path := ap }
  let imf := jgetD d "image_file" (.str "")
  if asStr imf = none ∧ truthy imf then (s, false)
  else
  let s := { s with output_path :=
    (if truthy imf then ospath_dirname ((asStr imf).getD "") else s.output_path) }
  match asStr (jgetD d "main_path" (.str "")) with
  | none => (s, false)
  | some mp =>
  let s := { s with main_path := mp }
  match asInt (jgetD d "name_length" (.int 32)) with
  | none => (s, false)
  | some nl =>
  let s := { s with name_length := clampSpin 8 128 nl }
  match asInt (jgetD d "split_height" (.int 16)) with
  | none => (s, false)
  | some sh =>
  let s := { s with split_height := clampSpin 1 1024 sh }
  match asStr (jgetD d "assets_size" (.str "0x100000")) with
  | none => (s, false)
  | some asz =>
  let s := { s with assets_size := asz }
  match asStr (jgetD d "support_format" (.str "")) with
  | none => (s, false)
  | some fmt =>
  let formats := pySplitComma fmt
  let s := { s with support_jpg := formats.contains ".jpg",
                    support_png := formats.contains ".png" }
  let s := { s with support_spng := truthy (jgetD d "support_spng" (.bool false)) }
  let s := { s with support_sjpg := truthy (jgetD d "support_sjpg" (.bool false)) }
  let s := { s with support_qoi := truthy (jgetD d "support_qoi" (.bool false)) }
  let s := { s with support_sqoi := truthy (jgetD d "support_sqoi" (.bool false)) }
  let s := { s with support_raw := truthy (jgetD d "support_raw" (.bool false)) }
  match asStr (jgetD d "lvgl_ver" (.str "9.0.0")) with
  | none => (s, false)
  | some lv =>
  let s := { s with lvgl_ver := comboSetText lvglItems s.lvgl_ver lv }
  match asStr (jgetD d "support_raw_cf" (.str "TRUE_COLOR")) with
  | none => (s, false)
  | some cf =>
  let s := { s with support_raw_cf := comboSetText rawCfItems s.support_raw_cf cf }
  match asStr (jgetD d "support_raw_ff" (.str "BIN")) with
  | none => (s, false)
  | some ff =>
  let s := { s with support_raw_ff := comboSetText rawFfItems s.support_raw_ff ff }
  let s := { s with support_raw_dither := truthy (jgetD d "support_raw_dither" (.bool false)) }
  let s := { s with support_raw_bgr := truthy (jgetD d "support_raw_bgr" (.bool false)) }
  (s, true)

/-- The dict literal of `load_default_config`. -/
def default_config_dict : List (String × JValue) :=
  [("assets_path", .str ""), ("image_file", .str ""), ("main_path", .str ""),
   ("name_length", .int 32), ("split_height", .int 16),
   ("support_format", .str ".jpg,.png"),
   ("support_spng", .bool true), ("support_sjpg", .bool true),
   ("support_qoi", .bool false), ("support_sqoi", .bool false),
   ("support_raw", .bool false),
   ("assets_size", .str "0x100000"), ("lvgl_ver", .str "9.0.0"),
   ("support_raw_cf", .str "TRUE_COLOR"), ("support_raw_ff", .str "BIN"),
   ("support_raw_dither", .bool false), ("support_raw_bgr", .bool false)]

/-- `load_default_config`. -/
def load_default_config (s : GuiState) : GuiState × Bool :=
  load_config_from_dict s default_config_dict

/-! ### Build orchestration -/

/-- Outcome of a `generate_assets` call: an early-return warning dialog,
an error dialog from the surrounding `except` clause, or a started
`GenerateThread` carrying the written configuration artifact. -/
inductive GenOutcome where
  | warned (msg : String) : GenOutcome
  | critical (msg : String) : GenOutcome
  | started (cfg : Config) : GenOutcome
deriving Repr, DecidableEq

/-- `generate_assets` (the `start` operation): validates the image
directory, the output directory and the script path, writes the
configuration artifact and starts a `GenerateThread`; on a started run it
clears the log, disables the generate button and shows the progress bar.
There is no check whatsoever that a previous run has finished.
`scriptExists` stands for `os.path.exists(self.script_path_edit.text())`. -/
def generate_assets (s : GuiState) (scriptExists : Bool) : GuiState × GenOutcome :=
  if s.assets_path = "" then (s, .warned "请选择图片目录")
  else if s.output_path = "" then (s, .warned "请选择输出目录")
  else if !scriptExists then (s, .warned "找不到脚本文件")
  else
    match generate_config s with
    | .error e => (s, .critical ("生成失败: " ++ e))
    | .ok cfg =>
      ({ s with output_log := ["开始生成资源文件..."],
                generate_btn_enabled := false,
                progress_bar_visible := true }, .started cfg)

/-- `on_progress`: appends the line to the output log. -/
def on_progress (s : GuiState) (message : String) : GuiState :=
  { s with output_log := s.output_log ++ [message] }

/-- `on_finished`: re-enables the generate button, hides the progress bar
and logs the outcome message. -/
def on_finished (s : GuiState) (success : Bool) (message : String) : GuiState :=
  { s with generate_btn_enabled := true, progress_bar_visible := false,
           output_log := s.output_log ++
             [(if success then "✅ " else "❌ ") ++ message] }

/-- A signal emitted by `GenerateThread`: `progress(str)` or
`finished(bool, str)`. -/
inductive Event where
  | progress (line : String) : Event
  | finished (success : Bool) (message : String) : Event
deriving Repr, DecidableEq

/-- Whether an event is a `progress` signal. -/
def isProgressEvent : Event → Bool
  | .progress _ => true
  | .finished _ _ => false

/-- Observable behaviour of one invocation of the external process, as
seen by `GenerateThread.run`: whether the script file exists, the decoded
result of each `stdout.readline` before EOF, the decoded stderr text, the
exit status, and an optional exception inside the `try` block raised after
`k` progress lines were relayed (`runError = some (k, msg)` — e.g. an
`OSError` from `Popen`).  The `Popen` decodes both pipes with
`errors='ignore'`, so reading them can never raise `UnicodeDecodeError`
(undecodable bytes are simply dropped, a wholly undecodable stderr
becoming `""`); the two `except UnicodeDecodeError` handlers in the source
are dead code and have no counterpart here. -/
structure ProcessBehavior where
  scriptExists : Bool
  stdoutLines : List String
  stderrText : String
  exitCode : Int
  runError : Option (Nat × String)
deriving Repr, DecidableEq

/-- The progress lines the streaming loop relays: empty reads are not
emitted (`if output:`), and each emitted line is `.strip()`ped. -/
def emittedLines (ls : List String) : List String :=
  ls.filterMap (fun l => if l = "" then none else some (pyStrip l))

/-- The terminal `finished` signal computed after process exit: success on
exit code 0; otherwise the captured stderr text if non-empty, or the
generic return-code message if it is empty (`error_msg = stderr if stderr
else ...`).  Because stderr is decoded with `errors='ignore'`, a wholly
undecodable error stream arrives here as `""` and also gets the generic
message. -/
def terminal_event (rc : Int) (stderrText : String) : Event :=
  if rc = 0 then .finished true "生成完成!"
  else .finished false
    (if stderrText = "" then "脚本执行失败，返回码: " ++ toString rc else stderrText)

/-- `GenerateThread.run`: the full list of signals one run emits, in
order.  A missing script yields a single `finished`; otherwise the command
echo is emitted first, then the relayed stdout lines, then exactly one
terminal `finished` — either from the `except` clause (after `k` relayed
lines) or from the exit-status dispatch. -/
def generate_thread_run (pyExe configPath scriptPath : String)
    (p : ProcessBehavior) : List Event :=
  if !p.scriptExists then [.finished false ("找不到脚本文件: " ++ scriptPath)]
  else
    let echo : Event := .progress ("执行命令: " ++ pyExe ++ " " ++ scriptPath ++ " --config " ++ configPath)
    match p.runError with
    | some (k, e) =>
        echo :: ((emittedLines p.stdoutLines).take k).map Event.progress
          ++ [.finished false ("执行出错: " ++ e)]
    | none =>
        echo :: (emittedLines p.stdoutLines).map Event.progress
          ++ [terminal_event p.exitCode p.stderrText]

/-! ### JSON parsing (`json.load`)

A recursive-descent parser for the grammar Python's `json.load` accepts in
its default configuration: objects, arrays, strings (with the
single-character escapes and `\uXXXX`, surrogate pairs combined), numbers
(strict RFC form — no leading zeros; a fraction or exponent makes a
Python `float`), `true`/`false`/`null`, the non-standard
`NaN`/`Infinity`/`-Infinity` constants, and JSON whitespace.  Raw control
characters inside strings are rejected, as in Python's strict mode.
`json_load` fails (Python raises `json.JSONDecodeError`) when the stream
is not a single well-formed document.  One representation caveat: a lone
surrogate escape produces a Python `str` that Lean's `Char` cannot hold;
`Char.ofNat` maps it to NUL here, which leaves the accept/reject boundary
— all any theorem below depends on — intact. -/

/-- Skip JSON whitespace. -/
def skipWs : List Char → List Char
  | [] => []
  | c :: cs =>
    if c = ' ' ∨ c = '\t' ∨ c = '\n' ∨ c = '\r' then skipWs cs else c :: cs

/-- The single-character string escapes of JSON, as a lookup table. -/
def escPairs : List (Char × Char) :=
  [('"', '"'), ('\\', '\\'), ('/', '/'), ('n', '\n'),
   ('t', '\t'), ('r', '\r'), ('b', Char.ofNat 8), ('f', Char.ofNat 12)]

/-- Decode a single-character string escape. -/
def escChar (c : Char) : Option Char :=
  (escPairs.find? (fun p => p.1 = c)).map (fun p => p.2)

/-- The value of one hexadecimal digit. -/
def hexDigitVal (c : Char) : Option Nat :=
  if c.isDigit then some (c.toNat - 48)
  else if 'a' ≤ c ∧ c ≤ 'f' then some (c.toNat - 87)
  else if 'A' ≤ c ∧ c ≤ 'F' then some (c.toNat - 55)
  else none

/-- The value of a `\uXXXX` escape's four hexadecimal digits. -/
def hex4 (a b c d : Char) : Option Nat :=
  (hexDigitVal a).bind (fun va => (hexDigitVal b).bind (fun vb =>
    (hexDigitVal c).bind (fun vc => (hexDigitVal d).map (fun vd =>
      ((va * 16 + vb) * 16 + vc) * 16 + vd))))

/-- Whether a code unit from a `\uXXXX` escape is a high surrogate. -/
def isHighSur (n : Nat) : Bool := 55296 ≤ n ∧ n ≤ 56319

/-- Whether a code unit from a `\uXXXX` escape is a low surrogate. -/
def isLowSur (n : Nat) : Bool := 56320 ≤ n ∧ n ≤ 57343

/-- Decode the body of a string literal (the opening quote already
consumed) to UTF-16-style code units, returning them and the rest of the
input.  Python's strict mode rejects raw control characters. -/
def parseStrUnits : List Char → Option (List Nat × List Char)
  | [] => none
  | '"' :: cs => some ([], cs)
  | '\\' :: 'u' :: a :: b :: c :: d :: cs =>
      (hex4 a b c d).bind (fun n => (parseStrUnits cs).map (fun r => (n :: r.1, r.2)))
  | '\\' :: c :: cs =>
      (escChar c).bind (fun e => (parseStrUnits cs).map (fun r => (e.toNat :: r.1, r.2)))
  | '\\' :: [] => none
  | c :: cs =>
      if c.toNat < 32 then none
      else (parseStrUnits cs).map (fun r => (c.toNat :: r.1, r.2))

/-- Join an escaped high surrogate to an immediately following escaped low
surrogate, as Python's json scanner does.  A lone surrogate yields a
Python `str` Lean's `Char` cannot hold; `Char.ofNat` maps it to NUL,
leaving the accept/reject boundary intact. -/
def unitsToChars : List Nat → List Char
  | [] => []
  | [n] => [Char.ofNat n]
  | n :: n2 :: rest2 =>
    if isHighSur n ∧ isLowSur n2 then
      Char.ofNat (65536 + (n - 55296) * 1024 + (n2 - 56320)) :: unitsToChars rest2
    else Char.ofNat n :: unitsToChars (n2 :: rest2)

/-- Parse the body of a string literal: decoded code units with surrogate
pairs joined. -/
def parseStrBody (cs : List Char) : Option (List Char × List Char) :=
  (parseStrUnits cs).map (fun r => (unitsToChars r.1, r.2))

/-- The numeric value of a digit run. -/
def digitsVal (ds : List Char) : Nat :=
  ds.foldl (fun n d => 10 * n + (d.toNat - 48)) 0

/-- The strict JSON integer part: a single `0`, or a run starting with a
nonzero digit (so Python rejects leading zeros such as `01`). -/
def parseIntPart : List Char → Option ((Nat × List Char) × List Char)
  | '0' :: rest => some ((0, ['0']), rest)
  | c :: rest =>
    if c.isDigit then
      let ds := rest.takeWhile (fun d => d.isDigit)
      some ((digitsVal (c :: ds), c :: ds), rest.drop ds.length)
    else none
  | [] => none

/-- A strict JSON number after an optional leading minus has been noted:
integer part, optional fraction, optional exponent.  A bare integer stays
a Python `int`; a fraction or exponent makes it a `float`.  A dot or `e`
not followed by digits is left unconsumed, ending the number there —
exactly where Python's number regex stops matching. -/
def parseNumber (neg : Bool) (cs : List Char) : Option (JValue × List Char) :=
  match parseIntPart cs with
  | none => none
  | some ir =>
    let fres : Option (List Char × List Char) :=
      match ir.2 with
      | '.' :: r =>
        (match r.takeWhile (fun d => d.isDigit) with
         | [] => none
         | ds => some (ds, r.drop ds.length))
      | _ => none
    let afterFrac := match fres with | some p => p.2 | none => ir.2
    let eres : Option (Int × List Char) :=
      match afterFrac with
      | e :: r =>
        if e = 'e' ∨ e = 'E' then
          let sr : Bool × List Char :=
            match r with
            | '+' :: r2 => (false, r2)
            | '-' :: r2 => (true, r2)
            | _ => (false, r)
          (match sr.2.takeWhile (fun d => d.isDigit) with
           | [] => none
           | ds =>
             some ((if sr.1 then -(digitsVal ds : Int) else (digitsVal ds : Int)),
               sr.2.drop ds.length))
        else none
      | [] => none
    match fres, eres with
    | none, none =>
      some (.int (if neg then -(ir.1.1 : Int) else (ir.1.1 : Int)), ir.2)
    | _, _ =>
      let fd := match fres with | some p => p.1 | none => []
      let rest := match eres with | some p => p.2 | none => afterFrac
      let expv : Int := match eres with | some p => p.1 | none => 0
      let mAbs : Int := (digitsVal (ir.1.2 ++ fd) : Int)
      some (.float (.dec (if neg then -mAbs else mAbs) (expv - (fd.length : Int))), rest)

/-- Require the given characters verbatim at the head of the input (used
for the tails of the keyword constants). -/
def chompWord : List Char → List Char → Option (List Char)
  | [], rest => some rest
  | w :: ws, c :: rest => if c = w then chompWord ws rest else none
  | _ :: _, [] => none

mutual

/-- Parse one JSON value (fuelled; the fuel bounds the recursion depth). -/
def parseValue : Nat → List Char → Option (JValue × List Char)
  | 0, _ => none
  | fuel + 1, cs =>
    match skipWs cs with
    | [] => none
    | c :: rest =>
      if c = 'n' then (chompWord ['u', 'l', 'l'] rest).map (fun r => (JValue.null, r))
      else if c = 't' then
        (chompWord ['r', 'u', 'e'] rest).map (fun r => (JValue.bool true, r))
      else if c = 'f' then
        (chompWord ['a', 'l', 's', 'e'] rest).map (fun r => (JValue.bool false, r))
      else if c = 'N' then
        (chompWord ['a', 'N'] rest).map (fun r => (JValue.float .nan, r))
      else if c = 'I' then
        (chompWord ['n', 'f', 'i', 'n', 'i', 't', 'y'] rest).map
          (fun r => (JValue.float (.inf false), r))
      else if c = '"' then
        (parseStrBody rest).map (fun r => (JValue.str ⟨r.1⟩, r.2))
      else if c = '[' then
        match skipWs rest with
        | ']' :: rest2 => some (JValue.arr [], rest2)
        | rest2 => parseItems fuel rest2
      else if c = '{' then
        match skipWs rest with
        | '}' :: rest2 => some (JValue.obj [], rest2)
        | rest2 => parseMembers fuel rest2
      else if c = '-' then
        match rest with
        | 'I' :: rest2 =>
          (chompWord ['n', 'f', 'i', 'n', 'i', 't', 'y'] rest2).map
            (fun r => (JValue.float (.inf true), r))
        | _ => parseNumber true rest
      else if c.isDigit then parseNumber false (c :: rest)
      else none

/-- Parse the items of a non-empty array (after the opening bracket). -/
def parseItems : Nat → List Char → Option (JValue × List Char)
  | 0, _ => none
  | fuel + 1, cs =>
    (parseValue fuel cs).bind (fun r =>
      match skipWs r.2 with
      | ',' :: rest2 =>
          (parseItems fuel rest2).bind (fun r2 =>
            match r2.1 with
            | .arr vs => some (JValue.arr (r.1 :: vs), r2.2)
            | _ => none)
      | ']' :: rest2 => some (JValue.arr [r.1], rest2)
      | _ => none)

/-- Parse the members of a non-empty object (after the opening brace). -/
def parseMembers : Nat → List Char → Option (JValue × List Char)
  | 0, _ => none
  | fuel + 1, cs =>
    match skipWs cs with
    | '"' :: rest =>
      (parseStrBody rest).bind (fun kr =>
        match skipWs kr.2 with
        | ':' :: rest3 =>
          (parseValue fuel rest3).bind (fun vr =>
            match skipWs vr.2 with
            | ',' :: rest5 =>
                (parseMembers fuel rest5).bind (fun mr =>
                  match mr.1 with
                  | .obj kvs => some (JValue.obj ((⟨kr.1⟩, vr.1) :: kvs), mr.2)
                  | _ => none)
            | '}' :: rest5 => some (JValue.obj [(⟨kr.1⟩, vr.1)], rest5)
            | _ => none)
        | _ => none)
    | _ => none

end

/-- `json.load` on the file contents: parse one document and require only
whitespace afterwards. -/
def json_load (content : String) : Option JValue :=
  match parseValue (content.length + 1) content.data with
  | some (v, rest) => if skipWs rest = [] then some v else none
  | none => none

/-- `load_config`: parse the chosen file and hydrate the form; every
exception (malformed JSON, a non-object document, a `TypeError` inside
`load_config_from_dict`) is caught and reported as a warning dialog, so
the returned flag says whether loading completed.  On success the log
records the loaded path. -/
def load_config (s : GuiState) (filePath content : String) : GuiState × Bool :=
  match json_load content with
  | some (.obj d) =>
      let r := load_config_from_dict s d
      if r.2 then
        ({ r.1 with output_log := r.1.output_log ++ ["配置已加载: " ++ filePath] }, true)
      else (r.1, false)
  | some _ => (s, false)
  | none => (s, false)

/-! ### Concrete scenarios used to settle the claims -/

/-- A successful silent run: the tool prints nothing and exits 0. -/
def silentSuccessRun : ProcessBehavior :=
  { scriptExists := true, stdoutLines := [], stderrText := "",
    exitCode := 0, runError := none }

/-- A failing run whose error stream captured nothing: it was empty, or
wholly undecodable and erased by `errors='ignore'`. -/
def emptyStderrRun : ProcessBehavior :=
  { scriptExists := true, stdoutLines := [], stderrText := "",
    exitCode := 1, runError := none }

/-- A failing run with diagnostic text on stderr. -/
def diagStderrRun : ProcessBehavior :=
  { scriptExists := true, stdoutLines := ["step 1\n"],
    stderrText := "boom: bad asset", exitCode := 2, runError := none }

/-- Form state during an active run: paths filled in, generate button
disabled by `generate_assets`, progress bar showing. -/
def active_run_state : GuiState :=
  { initial_state with
      assets_path := "C:/imgs", output_path := "C:/out",
      generate_btn_enabled := false, progress_bar_visible := true,
      output_log := ["开始生成资源文件..."] }

/-- A filled-in form ready to build. -/
def fresh_valid_state : GuiState :=
  { initial_state with assets_path := "C:/imgs", output_path := "C:/out" }

/-- A filled-in form with both input-format checkboxes deselected. -/
def no_format_state : GuiState :=
  { initial_state with
      assets_path := "C:/imgs", output_path := "C:/out",
      support_jpg := false, support_png := false }

/-- A form as previously hydrated from some configuration. -/
def loaded_old_state : GuiState :=
  { initial_state with assets_path := "/old", main_path := "/m" }

/-- A structurally well-formed JSON object that is not a well-formed
configuration artifact: `name_length` holds a string. -/
def badTypedContent : String :=
  "\x7b\"assets_path\": \"/new\", \"name_length\": \"bad\"\x7d"

/-- A filled-in form whose output directory ends in a doubled slash. -/
def doubled_slash_state : GuiState :=
  { initial_state with
      assets_path := "imgs", output_path := "out//" }

/-- An artifact whose `name_length` exceeds the C `int` range. -/
def overflow_dict : List (String × JValue) :=
  [("name_length", .int 2147483648)]

/-- An artifact with spin values far outside the widget ranges but inside
the C `int` range. -/
def big_spin_config : Config :=
  { assets_path := "imgs", image_file := "out/assets.bin", main_path := "",
    name_length := 500, split_height := 2000, support_format := ".jpg",
    support_spng := true, support_sjpg := false, support_qoi := false,
    support_sqoi := false, support_raw := false, assets_size := "0x200000",
    lvgl_ver := "9.1.0", support_raw_cf := "INDEXED_1BIT",
    support_raw_ff := "C_ARRAY", support_raw_dither := true,
    support_raw_bgr := false }

/-- The artifact built from `doubled_slash_state`. -/
def doubled_slash_config : Config :=
  { assets_path := "imgs", image_file := "out//assets.bin", main_path := "",
    name_length := 32, split_height := 16, support_format := ".jpg,.png",
    support_spng := true, support_sjpg := true, support_qoi := false,
    support_sqoi := false, support_raw := false, assets_size := "0x100000",
    lvgl_ver := "9.0.0", support_raw_cf := "TRUE_COLOR", support_raw_ff := "BIN",
    support_raw_dither := false, support_raw_bgr := false }

/-- The artifact rebuilt after hydrating a form from
`doubled_slash_config`: the doubled slash has collapsed. -/
def doubled_slash_config2 : Config :=
  { doubled_slash_config with image_file := "out/assets.bin" }

/-! ### The widget-enforced invariant

The spin boxes clamp to their configured ranges and the non-editable combo
boxes can only hold one of their items, so every state the form can
actually be in satisfies this predicate. -/

/-- Constraints the widgets enforce on their own values: spin boxes in
range, combo boxes on one of their items. -/
abbrev WidgetInv (s : GuiState) : Prop :=
  8 ≤ s.name_length ∧ s.name_length ≤ 128 ∧
  1 ≤ s.split_height ∧ s.split_height ≤ 1024 ∧
  s.lvgl_ver ∈ lvglItems ∧ s.support_raw_cf ∈ rawCfItems ∧
  s.support_raw_ff ∈ rawFfItems

/-! ### Helper lemmas -/

theorem truthy_str (x : String) : truthy (.str x) = (x != "") := rfl

theorem str_mk_eq_empty_iff (l : List Char) : (String.mk l = "") ↔ l = [] := by
  constructor
  · intro h
    exact congrArg String.data h
  · intro h
    rw [h]

theorem clampSpin_eq_self (lo hi v : Int) (h1 : lo ≤ v) (h2 : v ≤ hi) :
    clampSpin lo hi v = v := by
  unfold clampSpin
  rw [min_eq_right h2, max_eq_right h1]

theorem clampSpin_mem (lo hi v : Int) (h : lo ≤ hi) :
    lo ≤ clampSpin lo hi v ∧ clampSpin lo hi v ≤ hi := by
  unfold clampSpin
  exact ⟨le_max_left lo _, max_le h (min_le_left hi v)⟩

theorem joinCh_ne_nil (a b : List Char) (hb : b ≠ []) : joinCh a b ≠ [] := by
  unfold joinCh
  split
  · exact hb
  · split
    · simp [hb]
    · simp

/-- Splitting the serialized input-format string recovers exactly the two
checkbox states, for each of the four combinations. -/
theorem support_formats_roundtrip (s : GuiState) :
    (pySplitComma (get_support_formats s)).contains ".jpg" = s.support_jpg ∧
    (pySplitComma (get_support_formats s)).contains ".png" = s.support_png := by
  cases hj : s.support_jpg <;> cases hp2 : s.support_png <;>
    simp [get_support_formats, support_formats_list, hj, hp2] <;> decide

theorem takeWhile_binRev (r : List Char) :
    ((['a','s','s','e','t','s','.','b','i','n'].reverse ++ '/' :: r).takeWhile
        (fun c => c != '/'))
      = ['a','s','s','e','t','s','.','b','i','n'].reverse := rfl

theorem drop_binRev (r : List Char) :
    (['a','s','s','e','t','s','.','b','i','n'].reverse ++ '/' :: r).drop
        (['a','s','s','e','t','s','.','b','i','n'].reverse).length
      = '/' :: r := rfl

/-- Key path fact: for a non-empty output directory that does not end in a
repeated slash (or is all slashes), `dirname` of the joined output file is
non-empty and joining `"assets.bin"` back onto it reproduces the joined
path.  (For a directory ending in two or more slashes this fails, e.g.
`"a//"` gives `"a//assets.bin"`, dirname `"a"`, re-join `"a/assets.bin"`.) -/
theorem join_split_roundtrip (p : List Char) (hp : p ≠ [])
    (hgood : p.reverse.take 2 ≠ ['/', '/'] ∨ p.all (fun c => c == '/') = true) :
    splitHeadCh (joinCh p "assets.bin".data) ≠ [] ∧
      joinCh (splitHeadCh (joinCh p "assets.bin".data)) "assets.bin".data
        = joinCh p "assets.bin".data := by
  obtain ⟨c0, t, hq⟩ : ∃ c0 t, p.reverse = c0 :: t := by
    cases hr : p.reverse with
    | nil => exact absurd (by simpa using congrArg List.reverse hr) hp
    | cons c0 t => exact ⟨c0, t, rfl⟩
  have hpe : p = t.reverse ++ [c0] := by
    have h2 := congrArg List.reverse hq
    simpa using h2
  subst hpe
  by_cases hc : c0 = '/'
  · subst hc
    have hjoin : joinCh (t.reverse ++ ['/']) "assets.bin".data
        = (t.reverse ++ ['/']) ++ "assets.bin".data := by
      simp [joinCh]
    rw [hjoin]
    have hsplit1 : ((t.reverse ++ ['/']) ++ "assets.bin".data).reverse
        = "assets.bin".data.reverse ++ '/' :: t := by
      simp
    by_cases ht : t.all (fun c => c == '/') = true
    · have hsplit : splitHeadCh ((t.reverse ++ ['/']) ++ "assets.bin".data)
          = t.reverse ++ ['/'] := by
        simp only [splitHeadCh, hsplit1, takeWhile_binRev, drop_binRev]
        simp [List.all_append, List.all_reverse, ht]
      rw [hsplit, hjoin]
      simp
    · obtain ⟨c1, t1, ht1⟩ : ∃ c1 t1, t = c1 :: t1 := by
        cases t with
        | nil => simp at ht
        | cons c1 t1 => exact ⟨c1, t1, rfl⟩
      have hc1 : ¬ (c1 = '/') := by
        rcases hgood with hg | hg
        · subst ht1
          simp at hg
          intro he
          exact hg (by simp [he])
        · rw [show ((t.reverse ++ ['/']).all (fun c => c == '/'))
                = t.all (fun c => c == '/') by
              simp [List.all_append, List.all_reverse]] at hg
          exact absurd hg ht
      subst ht1
      have hsplit : splitHeadCh (((c1 :: t1).reverse ++ ['/']) ++ "assets.bin".data)
          = t1.reverse ++ [c1] := by
        simp only [splitHeadCh, hsplit1, takeWhile_binRev, drop_binRev]
        simp [List.all_reverse, beq_eq_false_iff_ne.mpr hc1, List.dropWhile]
      rw [hsplit]
      refine ⟨by simp, ?_⟩
      have hjoin2 : joinCh (t1.reverse ++ [c1]) "assets.bin".data
          = (t1.reverse ++ [c1]) ++ '/' :: "assets.bin".data := by
        simp [joinCh, List.getLast?_concat, hc1]
      rw [hjoin2]
      simp
  · have hjoin : joinCh (t.reverse ++ [c0]) "assets.bin".data
        = (t.reverse ++ [c0]) ++ '/' :: "assets.bin".data := by
      simp [joinCh, List.getLast?_concat, hc]
    rw [hjoin]
    have hsplit1 : ((t.reverse ++ [c0]) ++ '/' :: "assets.bin".data).reverse
        = "assets.bin".data.reverse ++ '/' :: c0 :: t := by
      simp
    have hsplit : splitHeadCh ((t.reverse ++ [c0]) ++ '/' :: "assets.bin".data)
        = t.reverse ++ [c0] := by
      simp only [splitHeadCh, hsplit1, takeWhile_binRev, drop_binRev]
      simp [List.all_reverse, beq_eq_false_iff_ne.mpr hc, List.dropWhile]
    rw [hsplit, hjoin]
    simp

/-- Deserializing a serialized configuration whose numeric fields fit in
a C `int` (so `QSpinBox.setValue` does not raise `OverflowError`): every
step succeeds, and each widget receives exactly the clamped /
combo-filtered / split value of the corresponding artifact field. -/
theorem load_config_dict_eq (s : GuiState) (c : Config)
    (hn1 : -2147483648 ≤ c.name_length) (hn2 : c.name_length < 2147483648)
    (hs1 : -2147483648 ≤ c.split_height) (hs2 : c.split_height < 2147483648) :
    load_config_from_dict s (config_dict c) =
      ({ s with
          assets_path := c.assets_path,
          output_path := (if truthy (JValue.str c.image_file) then
              ospath_dirname c.image_file else s.output_path),
          main_path := c.main_path,
          name_length := clampSpin 8 128 c.name_length,
          split_height := clampSpin 1 1024 c.split_height,
          assets_size := c.assets_size,
          support_jpg := (pySplitComma c.support_format).contains ".jpg",
          support_png := (pySplitComma c.support_format).contains ".png",
          support_spng := c.support_spng,
          support_sjpg := c.support_sjpg,
          support_qoi := c.support_qoi,
          support_sqoi := c.support_sqoi,
          support_raw := c.support_raw,
          lvgl_ver := comboSetText lvglItems s.lvgl_ver c.lvgl_ver,
          support_raw_cf := comboSetText rawCfItems s.support_raw_cf c.support_raw_cf,
          support_raw_ff := comboSetText rawFfItems s.support_raw_ff c.support_raw_ff,
          support_raw_dither := c.support_raw_dither,
          support_raw_bgr := c.support_raw_bgr }, true) := by
  have ha : asInt (jgetD (config_dict c) "name_length" (JValue.int 32))
      = some c.name_length := by
    rw [show jgetD (config_dict c) "name_length" (JValue.int 32)
          = JValue.int c.name_length from rfl]
    show (if -2147483648 ≤ c.name_length ∧ c.name_length < 2147483648
        then some c.name_length else none) = some c.name_length
    rw [if_pos ⟨hn1, hn2⟩]
  have hb : asInt (jgetD (config_dict c) "split_height" (JValue.int 16))
      = some c.split_height := by
    rw [show jgetD (config_dict c) "split_height" (JValue.int 16)
          = JValue.int c.split_height from rfl]
    show (if -2147483648 ≤ c.split_height ∧ c.split_height < 2147483648
        then some c.split_height else none) = some c.split_height
    rw [if_pos ⟨hs1, hs2⟩]
  unfold load_config_from_dict
  rw [ha, hb]
  rfl

end YdResPack

namespace YdResPack

/-! ## Claims -/

/-! ### C2 — deserialization defaults -/

/-- C2 counterexample: deserializing an artifact with every optional key
absent succeeds but leaves both input formats deselected and `sjpg`/`spng`
disabled — not the documented defaults (`{".jpg",".png"}` selected,
`sjpg`/`spng` enabled). -/
theorem claim2_counterexample :
    (load_config_from_dict initial_state []).2 = true ∧
    (load_config_from_dict initial_state []).1.support_jpg = false ∧
    (load_config_from_dict initial_state []).1.support_png = false ∧
    (load_config_from_dict initial_state []).1.support_sjpg = false ∧
    (load_config_from_dict initial_state []).1.support_spng = false :=
  ⟨rfl, rfl, rfl, rfl, rfl⟩

/-- C2 (amended): deserializing an artifact with all keys absent succeeds
and fills every field deterministically, but with the `load_config_from_dict`
defaults: no input format selected, every output-format flag disabled
(including sjpg/spng), nameLengthLimit 32, splitHeight 16, partition size
"0x100000", LVGL "9.0.0", TRUE_COLOR, BIN, dither and BGR disabled; the
output directory is left unchanged because `image_file` is absent. -/
theorem claim2_defaults (s : GuiState) (d : List (String × JValue))
    (h : ∀ k, jget d k = none) :
    load_config_from_dict s d =
      ({ s with
          assets_path := "", main_path := "",
          name_length := 32, split_height := 16, assets_size := "0x100000",
          support_jpg := false, support_png := false,
          support_spng := false, support_sjpg := false, support_qoi := false,
          support_sqoi := false, support_raw := false,
          lvgl_ver := "9.0.0", support_raw_cf := "TRUE_COLOR",
          support_raw_ff := "BIN",
          support_raw_dither := false, support_raw_bgr := false }, true) := by
  simp [load_config_from_dict, jgetD, h, asStr, asInt, truthy, comboSetText,
        clampSpin, pySplitComma, splitCommaCh, lvglItems, rawCfItems, rawFfItems]

/-- C2 witness: the empty dictionary instantiates `claim2_defaults`. -/
theorem claim2_witness :
    (∀ k, jget ([] : List (String × JValue)) k = none) ∧
    load_config_from_dict initial_state [] =
      ({ initial_state with
          assets_path := "", main_path := "",
          name_length := 32, split_height := 16, assets_size := "0x100000",
          support_jpg := false, support_png := false,
          support_spng := false, support_sjpg := false, support_qoi := false,
          support_sqoi := false, support_raw := false,
          lvgl_ver := "9.0.0", support_raw_cf := "TRUE_COLOR",
          support_raw_ff := "BIN",
          support_raw_dither := false, support_raw_bgr := false }, true) :=
  ⟨fun _ => rfl, claim2_defaults initial_state [] (fun _ => rfl)⟩

end YdResPack

namespace YdResPack

/-! ### C3 — validation behaviour of build -/

/-- Every element the form can put into the input-format list is one of
the two declared formats. -/
theorem support_formats_sub (s : GuiState) :
    ∀ f ∈ support_formats_list s, f ∈ [".jpg", ".png"] := by
  intro f hf
  cases hj : s.support_jpg <;> cases hp : s.support_png <;>
    simp [support_formats_list, hj, hp] at hf <;> simp [hf]

/-- C3: on every form state (whose widgets enforce their ranges and item
sets, `WidgetInv`), `generate_config` fails iff the output directory is
unset, or a numeric field is out of range, or an enumerated field is
outside its declared set — the latter disjuncts being impossible, the only
failure is the unset output directory, and otherwise a configuration is
returned. -/
theorem claim3_validation_iff (s : GuiState) (hinv : WidgetInv s) :
    (∃ e, generate_config s = .error e) ↔
      (s.output_path = "" ∨
       s.name_length < 8 ∨ 128 < s.name_length ∨
       s.split_height < 1 ∨ 1024 < s.split_height ∨
       s.lvgl_ver ∉ lvglItems ∨ s.support_raw_cf ∉ rawCfItems ∨
       s.support_raw_ff ∉ rawFfItems ∨
       ¬ (∀ f ∈ support_formats_list s, f ∈ [".jpg", ".png"])) := by
  obtain ⟨h1, h2, h3, h4, h5, h6, h7⟩ := hinv
  constructor
  · rintro ⟨e, he⟩
    unfold generate_config at he
    by_cases ho : s.output_path = ""
    · exact Or.inl ho
    · rw [if_neg ho] at he
      exact absurd he (by simp)
  · intro hd
    rcases hd with ho | hn | hn | hn | hn | hn | hn | hn | hn
    · exact ⟨_, by unfold generate_config; rw [if_pos ho]⟩
    · exact absurd hn (by omega)
    · exact absurd hn (by omega)
    · exact absurd hn (by omega)
    · exact absurd hn (by omega)
    · exact absurd h5 hn
    · exact absurd h6 hn
    · exact absurd h7 hn
    · exact absurd (support_formats_sub s) hn

/-- C3 witness: the initial form state satisfies the widget invariant and
has no output directory, so `generate_config` fails on it. -/
theorem claim3_witness :
    WidgetInv initial_state ∧
    (∃ e, generate_config initial_state = .error e) :=
  ⟨by decide, (claim3_validation_iff initial_state (by decide)).mpr (Or.inl rfl)⟩

/-! ### C10 — clamping of out-of-range numeric fields -/

/-- C10 counterexample: an artifact whose `name_length` is `2^31` — out of
the declared range `[8,128]` — does not deserialize to a clamped value:
the value exceeds the C `int` range, so `QSpinBox.setValue` raises
`OverflowError`, the load fails (an error is reported), and the spin box
keeps its previous value 32 rather than the nearest bound 128. -/
theorem claim10_counterexample :
    (load_config_from_dict initial_state overflow_dict).2 = false ∧
    (load_config_from_dict initial_state overflow_dict).1.name_length = 32 :=
  ⟨rfl, rfl⟩

/-- C10 (amended): for every serialized configuration whose numeric fields
fit in a C `int`, deserializing succeeds and stores `name_length` and
`split_height` clamped to `[8,128]` and `[1,1024]` respectively (in
particular both spin boxes end up in range), and `generate_assets` never
alters the two spin values; outside the C `int` range the load instead
fails with `OverflowError`. -/
theorem claim10_clamping (s : GuiState) (c : Config)
    (hn : -2147483648 ≤ c.name_length ∧ c.name_length < 2147483648)
    (hs : -2147483648 ≤ c.split_height ∧ c.split_height < 2147483648) :
    (load_config_from_dict s (config_dict c)).2 = true ∧
    (load_config_from_dict s (config_dict c)).1.name_length
      = clampSpin 8 128 c.name_length ∧
    (load_config_from_dict s (config_dict c)).1.split_height
      = clampSpin 1 1024 c.split_height ∧
    (8 ≤ (load_config_from_dict s (config_dict c)).1.name_length ∧
     (load_config_from_dict s (config_dict c)).1.name_length ≤ 128) ∧
    (1 ≤ (load_config_from_dict s (config_dict c)).1.split_height ∧
     (load_config_from_dict s (config_dict c)).1.split_height ≤ 1024) ∧
    (∀ b, (generate_assets s b).1.name_length = s.name_length ∧
          (generate_assets s b).1.split_height = s.split_height) := by
  rw [load_config_dict_eq s c hn.1 hn.2 hs.1 hs.2]
  refine ⟨rfl, rfl, rfl, clampSpin_mem 8 128 _ (by norm_num),
          clampSpin_mem 1 1024 _ (by norm_num), ?_⟩
  intro b
  unfold generate_assets
  repeat' split
  all_goals exact ⟨rfl, rfl⟩

/-- C10 witness: spin values 500 and 2000 (within C `int` range, far
outside the widget ranges) load with clamping to 128 and 1024. -/
theorem claim10_witness :
    (load_config_from_dict initial_state (config_dict big_spin_config)).2 = true ∧
    (load_config_from_dict initial_state (config_dict big_spin_config)).1.name_length
      = clampSpin 8 128 big_spin_config.name_length ∧
    (load_config_from_dict initial_state (config_dict big_spin_config)).1.split_height
      = clampSpin 1 1024 big_spin_config.split_height ∧
    (8 ≤ (load_config_from_dict initial_state (config_dict big_spin_config)).1.name_length ∧
     (load_config_from_dict initial_state (config_dict big_spin_config)).1.name_length ≤ 128) ∧
    (1 ≤ (load_config_from_dict initial_state (config_dict big_spin_config)).1.split_height ∧
     (load_config_from_dict initial_state (config_dict big_spin_config)).1.split_height ≤ 1024) ∧
    (∀ b, (generate_assets initial_state b).1.name_length = initial_state.name_length ∧
          (generate_assets initial_state b).1.split_height = initial_state.split_height) :=
  claim10_clamping initial_state big_spin_config (by decide) (by decide)

end YdResPack

namespace YdResPack

/-! ### C5 — exactly one terminal event, delivered last -/

/-- The exit-status dispatch always produces a `finished` signal. -/
theorem terminal_event_shape (rc : Int) (st : String) :
    ∃ b m, terminal_event rc st = .finished b m := by
  unfold terminal_event
  split <;> exact ⟨_, _, rfl⟩

/-- C5: whatever the external process does — script missing, an exception
inside the worker after any number of relayed lines, or a normal exit with
any status — the run emits exactly one terminal `finished` signal, it is
the last signal emitted, and everything before it is a `progress`
signal. -/
theorem claim5_single_terminal (py cfg scr : String) (p : ProcessBehavior) :
    ∃ pre b m, generate_thread_run py cfg scr p = pre ++ [.finished b m] ∧
      ∀ e ∈ pre, isProgressEvent e = true := by
  unfold generate_thread_run
  cases hse : p.scriptExists with
  | false =>
    exact ⟨[], false, "找不到脚本文件: " ++ scr, by simp [hse], by simp⟩
  | true =>
    cases hre : p.runError with
    | some ke =>
      refine ⟨.progress ("执行命令: " ++ py ++ " " ++ scr ++ " --config " ++ cfg)
          :: ((emittedLines p.stdoutLines).take ke.1).map Event.progress,
        false, "执行出错: " ++ ke.2, by simp [hse, hre], ?_⟩
      intro e he
      rcases List.mem_cons.mp he with h | h
      · rw [h]; rfl
      · obtain ⟨x, _, hx⟩ := List.mem_map.mp h
        rw [← hx]; rfl
    | none =>
      obtain ⟨b, m, hbm⟩ := terminal_event_shape p.exitCode p.stderrText
      refine ⟨.progress ("执行命令: " ++ py ++ " " ++ scr ++ " --config " ++ cfg)
          :: (emittedLines p.stdoutLines).map Event.progress,
        b, m, by simp [hse, hre, hbm], ?_⟩
      intro e he
      rcases List.mem_cons.mp he with h | h
      · rw [h]; rfl
      · obtain ⟨x, _, hx⟩ := List.mem_map.mp h
        rw [← hx]; rfl

/-! ### C6 — failure message on nonzero exit -/

/-- C6: on every nonzero exit the terminal event is `finished(false, m)`
where `m` is the captured error-stream text verbatim when that text is
non-empty, and the generic return-code message when it is empty.  Both
pipes are decoded with `errors='ignore'`, so an undecodable error stream
can never raise: its bytes are dropped and a wholly undecodable stream is
captured as `""`, which also receives the generic message — the
`except UnicodeDecodeError` fallback in the source is unreachable. -/
theorem claim6_failure_message (py cfg scr : String) (p : ProcessBehavior)
    (hse : p.scriptExists = true) (hre : p.runError = none)
    (hrc : p.exitCode ≠ 0) :
    (generate_thread_run py cfg scr p).getLast? = some (.finished false
      (if p.stderrText = "" then "脚本执行失败，返回码: " ++ toString p.exitCode
       else p.stderrText)) := by
  unfold generate_thread_run
  rw [hse, hre]
  simp only [Bool.not_true, Bool.false_eq_true, if_false]
  rw [show (Event.progress ("执行命令: " ++ py ++ " " ++ scr ++ " --config " ++ cfg)
        :: (emittedLines p.stdoutLines).map Event.progress
        ++ [terminal_event p.exitCode p.stderrText])
      = (Event.progress ("执行命令: " ++ py ++ " " ++ scr ++ " --config " ++ cfg)
        :: (emittedLines p.stdoutLines).map Event.progress)
        ++ [terminal_event p.exitCode p.stderrText] by simp]
  rw [List.getLast?_concat]
  unfold terminal_event
  rw [if_neg hrc]

/-- C6 witness: diagnostic text `"boom: bad asset"` is delivered verbatim
on exit 2, and a run whose error stream captured nothing gets the generic
return-code message on exit 1. -/
theorem claim6_witness :
    (generate_thread_run "python" "cfg.json" "gen.py" diagStderrRun).getLast?
      = some (.finished false "boom: bad asset") ∧
    (generate_thread_run "python" "cfg.json" "gen.py" emptyStderrRun).getLast?
      = some (.finished false "脚本执行失败，返回码: 1") :=
  ⟨claim6_failure_message "python" "cfg.json" "gen.py" diagStderrRun rfl rfl
      (by decide),
   claim6_failure_message "python" "cfg.json" "gen.py" emptyStderrRun rfl rfl
      (by decide)⟩

end YdResPack

namespace YdResPack

/-! ### C4 — progress events for a successful run -/

/-- The streaming loop relays every non-empty line, stripped. -/
theorem emittedLines_stripped (ls : List String) (h : ∀ l ∈ ls, l ≠ "") :
    emittedLines ls = ls.map pyStrip := by
  induction ls with
  | nil => rfl
  | cons a as ih =>
    have ha : ¬ (a = "") := h a (List.mem_cons_self a as)
    have ih2 := ih (fun l hl => h l (List.mem_cons_of_mem a hl))
    simp only [emittedLines, List.filterMap_cons] at ih2 ⊢
    rw [if_neg ha, ih2, List.map_cons]

/-- C4 counterexample: a tool that prints N = 0 lines and exits 0 still
produces one `progress` event — the command echo `"执行命令: ..."` the
worker emits before spawning — so exactly N events is false. -/
theorem claim4_counterexample :
    generate_thread_run "python" "temp_config.json" "./spiffs_assets_gen.py"
        silentSuccessRun
      = [.progress "执行命令: python ./spiffs_assets_gen.py --config temp_config.json",
         .finished true "生成完成!"] ∧
    ((generate_thread_run "python" "temp_config.json" "./spiffs_assets_gen.py"
        silentSuccessRun).filter isProgressEvent).length = 1 :=
  ⟨rfl, rfl⟩

/-- C4 (amended): when the tool emits N lines and exits 0, the run
delivers exactly N + 1 `progress` events — first the command echo, then
the N tool lines whitespace-stripped, in emission order — followed by one
`finished(true, …)` and nothing after it. -/
theorem claim4_progress_stream (py cfg scr : String) (lines : List String)
    (st : String) (h : ∀ l ∈ lines, l ≠ "") :
    generate_thread_run py cfg scr
        { scriptExists := true, stdoutLines := lines,
          stderrText := st, exitCode := 0, runError := none }
      = .progress ("执行命令: " ++ py ++ " " ++ scr ++ " --config " ++ cfg)
          :: (lines.map pyStrip).map Event.progress
          ++ [.finished true "生成完成!"] := by
  unfold generate_thread_run
  simp only [Bool.not_true, Bool.false_eq_true, if_false,
             emittedLines_stripped lines h]
  rfl

/-- C4 witness: two tool lines give three progress events then success. -/
theorem claim4_witness :
    (∀ l ∈ ["line one\n", " line two \n"], l ≠ "") ∧
    generate_thread_run "python" "cfg.json" "gen.py"
        { scriptExists := true,
          stdoutLines := ["line one\n", " line two \n"],
          stderrText := "", exitCode := 0, runError := none }
      = [.progress "执行命令: python gen.py --config cfg.json",
         .progress "line one", .progress "line two",
         .finished true "生成完成!"] :=
  ⟨by decide, claim4_progress_stream "python" "cfg.json" "gen.py"
    ["line one\n", " line two \n"] "" (by decide)⟩

end YdResPack

namespace YdResPack

/-! ### C8 — no run-exclusion in start; C9 — empty input formats -/

/-- On a form with image and output directories filled in and the script
present, `generate_assets` always starts a run: writes the artifact,
clears the log, disables the generate button, shows the progress bar. -/
theorem generate_assets_started (s : GuiState)
    (h1 : s.assets_path ≠ "") (h2 : s.output_path ≠ "") :
    generate_assets s true =
      ({ s with
          output_log := ["开始生成资源文件..."],
          generate_btn_enabled := false,
          progress_bar_visible := true },
       .started
        { assets_path := s.assets_path,
          image_file := ospath_join s.output_path "assets.bin",
          main_path := s.main_path,
          name_length := s.name_length,
          split_height := s.split_height,
          support_format := get_support_formats s,
          support_spng := s.support_spng,
          support_sjpg := s.support_sjpg,
          support_qoi := s.support_qoi,
          support_sqoi := s.support_sqoi,
          support_raw := s.support_raw,
          assets_size := s.assets_size,
          lvgl_ver := s.lvgl_ver,
          support_raw_cf := s.support_raw_cf,
          support_raw_ff := s.support_raw_ff,
          support_raw_dither := s.support_raw_dither,
          support_raw_bgr := s.support_raw_bgr }) := by
  unfold generate_assets generate_config
  rw [if_neg h1, if_neg h2, if_neg h2]
  rfl

/-- C8 counterexample: in a state where a run is active (button disabled,
progress bar showing), calling `generate_assets` does not fail with any
already-active error — it starts a second run outright. -/
theorem claim8_counterexample :
    (generate_assets active_run_state true).2 = GenOutcome.started
      { assets_path := "C:/imgs", image_file := "C:/out/assets.bin",
        main_path := "", name_length := 32, split_height := 16,
        support_format := ".jpg,.png",
        support_spng := true, support_sjpg := true, support_qoi := false,
        support_sqoi := false, support_raw := false,
        assets_size := "0x100000", lvgl_ver := "9.0.0",
        support_raw_cf := "TRUE_COLOR", support_raw_ff := "BIN",
        support_raw_dither := false, support_raw_bgr := false } := rfl

/-- C8 (amended): `generate_assets` performs no active-run check; its only
exclusion is at the UI level — a started run disables the generate button
until `on_finished` re-enables it.  Invoked directly while a run is active
it spawns a second run rather than failing with a RunAlreadyActiveError. -/
theorem claim8_no_mutex (s : GuiState)
    (h1 : s.assets_path ≠ "") (h2 : s.output_path ≠ "") :
    ∃ s1 cfg, generate_assets s true = (s1, .started cfg) ∧
      s1.generate_btn_enabled = false ∧
      (∃ cfg2, (generate_assets s1 true).2 = .started cfg2) ∧
      (∀ b m, (on_finished s1 b m).generate_btn_enabled = true) := by
  refine ⟨_, _, generate_assets_started s h1 h2, rfl, ?_, fun b m => rfl⟩
  rw [generate_assets_started
    { s with
        output_log := ["开始生成资源文件..."],
        generate_btn_enabled := false,
        progress_bar_visible := true } h1 h2]
  exact ⟨_, rfl⟩

/-- C8 witness: instantiating `claim8_no_mutex` on the active-run state. -/
theorem claim8_witness :
    ∃ s1 cfg, generate_assets active_run_state true = (s1, .started cfg) ∧
      s1.generate_btn_enabled = false ∧
      (∃ cfg2, (generate_assets s1 true).2 = .started cfg2) ∧
      (∀ b m, (on_finished s1 b m).generate_btn_enabled = true) :=
  claim8_no_mutex active_run_state (by decide) (by decide)

/-- C9 counterexample: a build started with both `.jpg` and `.png`
deselected proceeds and produces an artifact whose `support_format` is the
empty string — the supported-input-formats set is empty. -/
theorem claim9_counterexample :
    (generate_assets no_format_state true).2 = GenOutcome.started
      { assets_path := "C:/imgs", image_file := "C:/out/assets.bin",
        main_path := "", name_length := 32, split_height := 16,
        support_format := "",
        support_spng := true, support_sjpg := true, support_qoi := false,
        support_sqoi := false, support_raw := false,
        assets_size := "0x100000", lvgl_ver := "9.0.0",
        support_raw_cf := "TRUE_COLOR", support_raw_ff := "BIN",
        support_raw_dither := false, support_raw_bgr := false } := rfl

/-- C9 (amended): `generate_assets` places no constraint on the input
formats: with both checkboxes deselected a build still starts and its
artifact carries an empty `support_format`. -/
theorem claim9_empty_formats (s : GuiState)
    (h1 : s.assets_path ≠ "") (h2 : s.output_path ≠ "")
    (hj : s.support_jpg = false) (hp : s.support_png = false) :
    ∃ cfg, (generate_assets s true).2 = .started cfg ∧ cfg.support_format = "" := by
  rw [generate_assets_started s h1 h2]
  refine ⟨_, rfl, ?_⟩
  simp [get_support_formats, support_formats_list, hj, hp]
  rfl

/-- C9 witness: instantiating `claim9_empty_formats` on the all-formats-off
state. -/
theorem claim9_witness :
    ∃ cfg, (generate_assets no_format_state true).2 = .started cfg ∧
      cfg.support_format = "" :=
  claim9_empty_formats no_format_state (by decide) (by decide) rfl rfl

end YdResPack

namespace YdResPack

/-! ### C7 — atomicity of failed loads -/

/-- C7 counterexample: `badTypedContent` is well-formed JSON but not a
well-formed configuration artifact (`name_length` holds a string, so
`QSpinBox.setValue` raises `TypeError`).  Loading it fails, yet
`assets_path` has been overwritten with the loaded value and `main_path`
with its default — the failed load is not atomic. -/
theorem claim7_counterexample :
    (load_config loaded_old_state "cfg.json" badTypedContent).2 = false ∧
    (load_config loaded_old_state "cfg.json" badTypedContent).1.assets_path = "/new" ∧
    loaded_old_state.assets_path = "/old" ∧
    (load_config loaded_old_state "cfg.json" badTypedContent).1.main_path = "" ∧
    loaded_old_state.main_path = "/m" :=
  ⟨rfl, rfl, rfl, rfl, rfl⟩

/-- C7 (amended): for every byte stream that is not a well-formed JSON
object — malformed JSON or a non-object document — loading fails and
leaves every field of the in-memory state unchanged; atomicity does not
extend to well-formed JSON objects with wrongly typed field values, where
the load fails after mutating the fields processed before the offending
key. -/
theorem claim7_parse_atomic (s : GuiState) (fp content : String)
    (h : ∀ d, json_load content ≠ some (.obj d)) :
    load_config s fp content = (s, false) := by
  cases hv : json_load content with
  | none => simp [load_config, hv]
  | some v =>
    cases v with
    | obj d => exact absurd hv (h d)
    | float f => simp [load_config, hv]
    | null => simp [load_config, hv]
    | bool b => simp [load_config, hv]
    | int n => simp [load_config, hv]
    | str t => simp [load_config, hv]
    | arr xs => simp [load_config, hv]

/-- C7 witness: the malformed stream `"{"` leaves the initial state
untouched. -/
theorem claim7_witness :
    load_config initial_state "config.json" "\x7b" = (initial_state, false) :=
  claim7_parse_atomic initial_state "config.json" "\x7b" (fun d h => by
    rw [show json_load "\x7b" = none from rfl] at h
    exact Option.noConfusion h)

end YdResPack

namespace YdResPack

/-! ### C1 — serialization round trip -/

/-- C1 counterexample: the output directory `"out//"` is accepted by
`generate_config` (non-empty), but the built artifact's
`image_file = "out//assets.bin"` comes back as `"out/assets.bin"` after
deserializing and rebuilding — the round trip is not the identity on the
derived output-file path. -/
theorem claim1_counterexample :
    generate_config doubled_slash_state = .ok doubled_slash_config ∧
    (load_config_from_dict initial_state (config_dict doubled_slash_config)).2 = true ∧
    generate_config (load_config_from_dict initial_state
        (config_dict doubled_slash_config)).1 = .ok doubled_slash_config2 ∧
    doubled_slash_config2.image_file ≠ doubled_slash_config.image_file :=
  ⟨rfl, rfl, rfl, by decide⟩

/-- `setCurrentText` with one of the combo box's own items selects it. -/
theorem comboSetText_mem (items : List String) (cur v : String) (h : v ∈ items) :
    comboSetText items cur v = v := by
  unfold comboSetText
  rw [if_pos h]

/-- C1 (amended): for every form state with a non-empty output directory
that does not end in a repeated path separator (unless it is all
separators), building, serializing, deserializing into any form, and
rebuilding yields a configuration equal to the original in every field,
including the derived output-file path. -/
theorem claim1_roundtrip (s s2 : GuiState) (hinv : WidgetInv s)
    (hout : s.output_path ≠ "")
    (hgood : s.output_path.data.reverse.take 2 ≠ ['/', '/'] ∨
             s.output_path.data.all (fun ch => ch == '/') = true) :
    ∃ cfg, generate_config s = .ok cfg ∧
      (load_config_from_dict s2 (config_dict cfg)).2 = true ∧
      generate_config (load_config_from_dict s2 (config_dict cfg)).1 = .ok cfg := by
  obtain ⟨h1, h2, h3, h4, h5, h6, h7⟩ := hinv
  have hpd : s.output_path.data ≠ [] := by
    intro h
    apply hout
    have he : s.output_path = String.mk s.output_path.data := rfl
    rw [he, h]
  obtain ⟨hne, hrt⟩ := join_split_roundtrip s.output_path.data hpd hgood
  have hcfg : generate_config s = .ok
      { assets_path := s.assets_path,
        image_file := ospath_join s.output_path "assets.bin",
        main_path := s.main_path,
        name_length := s.name_length,
        split_height := s.split_height,
        support_format := get_support_formats s,
        support_spng := s.support_spng,
        support_sjpg := s.support_sjpg,
        support_qoi := s.support_qoi,
        support_sqoi := s.support_sqoi,
        support_raw := s.support_raw,
        assets_size := s.assets_size,
        lvgl_ver := s.lvgl_ver,
        support_raw_cf := s.support_raw_cf,
        support_raw_ff := s.support_raw_ff,
        support_raw_dither := s.support_raw_dither,
        support_raw_bgr := s.support_raw_bgr } := by
    unfold generate_config
    rw [if_neg hout]
  refine ⟨_, hcfg, ?_, ?_⟩
  · rw [load_config_dict_eq]
    · show (-2147483648 : Int) ≤ s.name_length
      omega
    · show s.name_length < 2147483648
      omega
    · show (-2147483648 : Int) ≤ s.split_height
      omega
    · show s.split_height < 2147483648
      omega
  · rw [load_config_dict_eq]
    have hjne : ospath_join s.output_path "assets.bin" ≠ "" := by
      unfold ospath_join
      rw [Ne, str_mk_eq_empty_iff]
      exact joinCh_ne_nil _ _ (by decide)
    have htr : truthy (JValue.str (ospath_join s.output_path "assets.bin")) = true := by
      rw [truthy_str]
      exact bne_iff_ne.mpr hjne
    have hdne : ospath_dirname (ospath_join s.output_path "assets.bin") ≠ "" := by
      unfold ospath_dirname ospath_join
      rw [Ne, str_mk_eq_empty_iff]
      exact hne
    simp only [htr, if_true]
    unfold generate_config
    rw [if_neg hdne]
    have himg : ospath_join (ospath_dirname (ospath_join s.output_path "assets.bin"))
        "assets.bin" = ospath_join s.output_path "assets.bin" := by
      unfold ospath_join ospath_dirname
      exact congrArg String.mk hrt
    simp only [Except.ok.injEq]
    rw [himg, clampSpin_eq_self 8 128 s.name_length h1 h2,
        clampSpin_eq_self 1 1024 s.split_height h3 h4,
        comboSetText_mem lvglItems s2.lvgl_ver s.lvgl_ver h5,
        comboSetText_mem rawCfItems s2.support_raw_cf s.support_raw_cf h6,
        comboSetText_mem rawFfItems s2.support_raw_ff s.support_raw_ff h7,
        (support_formats_roundtrip s).1, (support_formats_roundtrip s).2]
    unfold get_support_formats support_formats_list
    rfl
    · show (-2147483648 : Int) ≤ s.name_length
      omega
    · show s.name_length < 2147483648
      omega
    · show (-2147483648 : Int) ≤ s.split_height
      omega
    · show s.split_height < 2147483648
      omega

/-- C1 witness: the round trip on a filled-in form with output directory
`"C:/out"`. -/
theorem claim1_witness :
    ∃ cfg, generate_config fresh_valid_state = .ok cfg ∧
      (load_config_from_dict initial_state (config_dict cfg)).2 = true ∧
      generate_config (load_config_from_dict initial_state
        (config_dict cfg)).1 = .ok cfg :=
  claim1_roundtrip fresh_valid_state initial_state (by decide) (by decide)
    (Or.inl (by decide))

end YdResPack
